import Mathlib

/-
Verification of the SACRM 3.0 rating engine (`SACRMEngine` in `app.py`).

The engine is shallowly embedded over exact rationals `ℚ` (the Python code
performs plain arithmetic on the input numbers); the probability-of-default
estimator, which uses `np.exp`, is embedded over the reals `ℝ` with
`Real.exp`.  Python `round(x, n)` is modelled as round-half-up at `n`
decimal places.
-/

namespace SACRM

/-- Input record for one company, mirroring the fields of the CSV template
consumed by the engine.  Numeric fields are exact rationals; the two
boolean-like fields are the raw strings compared against `"yes"` by the
code. -/
structure FinancialProfile where
  company_name : String
  country : String
  sector : String
  revenue_usd : ℚ
  ebitda_usd : ℚ
  total_debt_usd : ℚ
  cash_usd : ℚ
  operating_cashflow_usd : ℚ
  interest_expense_usd : ℚ
  fx_debt_percentage : ℚ
  has_bank_restructuring : String
  payment_delays_days : ℚ
  mobile_money_share : ℚ
  audited_financials : String

/-- Rounding to one decimal place, as in Python `round(x, 1)`. -/
def round1 (x : ℚ) : ℚ := ((round (x * 10) : ℤ) : ℚ) / 10

/-- The country risk reference table `SACRMEngine.COUNTRY_RISK`. -/
def COUNTRY_RISK : List (String × ℚ) :=
  [("Kenya", 78), ("Ghana", 72), ("Nigeria", 70), ("Rwanda", 82),
   ("South Africa", 75), ("Egypt", 68), ("Morocco", 80), ("Namibia", 76),
   ("Botswana", 85), ("Mauritius", 88)]

/-- The sector risk reference table `SACRMEngine.SECTOR_RISK` (populated but
never consulted by the scoring pipeline). -/
def SECTOR_RISK : List (String × ℚ) :=
  [("Banking", 75), ("Telecom", 82), ("Manufacturing", 70),
   ("Agriculture", 65), ("Energy", 72), ("Mining", 68), ("Retail", 73),
   ("Technology", 78), ("Logistics", 74), ("Real Estate", 69)]

/-- Python `str.lower()` restricted to ASCII, as applied by the engine to
the `"yes"`/`"no"` categorical fields. -/
def lower (s : String) : String := String.mk (s.data.map Char.toLower)

/-- `SACRMEngine.calculate_crs`: dictionary lookup with default 70,
`COUNTRY_RISK.get(country, 70)`. -/
def calculate_crs (country : String) : ℚ :=
  (List.lookup country COUNTRY_RISK).getD 70

/-- The `debt_to_ebitda` ratio computed by `calculate_fss`. -/
def debt_to_ebitda (data : FinancialProfile) : ℚ :=
  data.total_debt_usd / max data.ebitda_usd 1

/-- The `interest_coverage` ratio computed by `calculate_fss`. -/
def interest_coverage (data : FinancialProfile) : ℚ :=
  data.ebitda_usd / max data.interest_expense_usd 1

/-- The `ocf_to_debt` ratio computed by `calculate_fss`. -/
def ocf_to_debt (data : FinancialProfile) : ℚ :=
  data.operating_cashflow_usd / max data.total_debt_usd 1

/-- The `liquidity` ratio computed by `calculate_fss` (and recomputed
verbatim as `liquidity_ratio` inside `calculate_sss`). -/
def liquidity (data : FinancialProfile) : ℚ :=
  data.cash_usd / max (data.total_debt_usd * 0.2) 1

/-- `SACRMEngine.calculate_fss`: base 50, four independent stepped tier
bonuses, capped above at 100 (no lower clamp). -/
def calculate_fss (data : FinancialProfile) : ℚ :=
  let score : ℚ := 50
  let score := score +
    (if debt_to_ebitda data < 2 then 15
     else if debt_to_ebitda data < 3 then 10
     else if debt_to_ebitda data < 4 then 5 else 0)
  let score := score +
    (if interest_coverage data > 5 then 15
     else if interest_coverage data > 3 then 10
     else if interest_coverage data > 2 then 5 else 0)
  let score := score +
    (if ocf_to_debt data > 0.3 then 10
     else if ocf_to_debt data > 0.2 then 6
     else if ocf_to_debt data > 0.1 then 3 else 0)
  let score := score +
    (if liquidity data > 1.5 then 10
     else if liquidity data > 1.0 then 6
     else if liquidity data > 0.5 then 3 else 0)
  min score 100

/-- `SACRMEngine.calculate_ocbs`: base 80, restructuring penalty, one
payment-delay adjustment (first true branch wins), clamped to `[0,100]`. -/
def calculate_ocbs (data : FinancialProfile) : ℚ :=
  let score : ℚ := 80
  let score := score - (if lower data.has_bank_restructuring = "yes" then 15 else 0)
  let score := score +
    (if data.payment_delays_days < 30 then 10
     else if data.payment_delays_days < 60 then 5
     else if data.payment_delays_days > 90 then -15
     else if data.payment_delays_days > 60 then -10 else 0)
  max (min score 100) 0

/-- `SACRMEngine.calculate_brs`: base 70, mobile-money tiers, audited
bonus/penalty, FX-exposure adjustment, clamped to `[0,100]`. -/
def calculate_brs (data : FinancialProfile) : ℚ :=
  let score : ℚ := 70
  let score := score +
    (if data.mobile_money_share > 60 then 15
     else if data.mobile_money_share > 40 then 10
     else if data.mobile_money_share > 20 then 5 else 0)
  let score := score + (if lower data.audited_financials = "yes" then 10 else -10)
  let score := score +
    (if data.fx_debt_percentage < 30 then 5
     else if data.fx_debt_percentage > 60 then -10 else 0)
  max (min score 100) 0

/-- `SACRMEngine.calculate_sss`: 85% of FSS, multiplicative FX stress,
liquidity-buffer adjustment, clamped to `[0,100]`. -/
def calculate_sss (data : FinancialProfile) (fss : ℚ) : ℚ :=
  let score := fss * 0.85
  let fx_stress := data.fx_debt_percentage / 100
  let score := score * (1 - fx_stress * 0.3)
  let score := score +
    (if liquidity data > 1.2 then 5
     else if liquidity data < 0.8 then -5 else 0)
  max (min score 100) 0

/-- Weight of the sovereign risk score in the composite (`weights['crs']`). -/
def w_crs : ℚ := 0.30

/-- Weight of the financial strength score (`weights['fss']`). -/
def w_fss : ℚ := 0.25

/-- Weight of the financier behavior score (`weights['ocbs']`). -/
def w_ocbs : ℚ := 0.20

/-- Weight of the alternative data score (`weights['brs']`). -/
def w_brs : ℚ := 0.15

/-- Weight of the stress score (`weights['sss']`). -/
def w_sss : ℚ := 0.10

/-- `SACRMEngine.calculate_composite`: fixed-weight linear combination of
the five sub-scores, rounded to one decimal. -/
def calculate_composite (crs fss ocbs brs sss : ℚ) : ℚ :=
  round1 (crs * w_crs + fss * w_fss + ocbs * w_ocbs + brs * w_brs + sss * w_sss)

/-- `SACRMEngine.get_rating_grade`: the if/elif threshold chain of the
source, checked highest-first. -/
def get_rating_grade (score : ℚ) : String :=
  if score ≥ 90 then "AAA"
  else if score ≥ 85 then "AA"
  else if score ≥ 80 then "A+"
  else if score ≥ 75 then "A"
  else if score ≥ 72 then "A-"
  else if score ≥ 70 then "BBB+"
  else if score ≥ 68 then "BBB"
  else if score ≥ 65 then "BBB-"
  else if score ≥ 62 then "BB+"
  else if score ≥ 60 then "BB"
  else if score ≥ 55 then "BB-"
  else if score ≥ 50 then "B+"
  else if score ≥ 45 then "B"
  else "B-"

/-- Rounding to two decimal places on the reals, as in Python
`round(x, 2)`. -/
noncomputable def round2 (x : ℝ) : ℝ := ((round (x * 100) : ℤ) : ℝ) / 100

/-- `SACRMEngine.calculate_pd`: `pd_1y = max(0.1, 50·e^(−0.05·score))`,
`pd_3y = pd_1y · 2.3` (the unrounded value), both rounded to two decimals
on return. -/
noncomputable def calculate_pd (score : ℝ) : ℝ × ℝ :=
  let pd_1y := max 0.1 (50 * Real.exp (-0.05 * score))
  let pd_3y := pd_1y * 2.3
  (round2 pd_1y, round2 pd_3y)

/-- The scenario profile of the spec: Kenya, Manufacturing, revenue
50,000,000, EBITDA 8,000,000, debt 25,000,000, cash 5,000,000, OCF
10,000,000, interest expense 1,500,000, FX% 45, no restructuring, 30-day
delays, 75% mobile money, audited. -/
def scenarioProfile : FinancialProfile where
  company_name := "Example Company Ltd"
  country := "Kenya"
  sector := "Manufacturing"
  revenue_usd := 50000000
  ebitda_usd := 8000000
  total_debt_usd := 25000000
  cash_usd := 5000000
  operating_cashflow_usd := 10000000
  interest_expense_usd := 1500000
  fx_debt_percentage := 45
  has_bank_restructuring := "no"
  payment_delays_days := 30
  mobile_money_share := 75
  audited_financials := "yes"

/-- Validity constraints on an input profile, as stated by the spec:
non-negative monetary amounts, percentage fields in `[0,100]`, and a
non-negative integral number of payment-delay days. -/
def ValidProfile (p : FinancialProfile) : Prop :=
  0 ≤ p.revenue_usd ∧ 0 ≤ p.ebitda_usd ∧ 0 ≤ p.total_debt_usd ∧
  0 ≤ p.cash_usd ∧ 0 ≤ p.operating_cashflow_usd ∧
  0 ≤ p.interest_expense_usd ∧
  0 ≤ p.fx_debt_percentage ∧ p.fx_debt_percentage ≤ 100 ∧
  0 ≤ p.mobile_money_share ∧ p.mobile_money_share ≤ 100 ∧
  (∃ n : ℕ, p.payment_delays_days = n)

/-- The grade thresholds of the spec table, highest first, paired with the
grade awarded when the threshold is met. -/
def gradeThresholds : List (ℚ × String) :=
  [(90, "AAA"), (85, "AA"), (80, "A+"), (75, "A"), (72, "A-"),
   (70, "BBB+"), (68, "BBB"), (65, "BBB-"), (62, "BB+"), (60, "BB"),
   (55, "BB-"), (50, "B+"), (45, "B")]

/-- First-satisfied-threshold-wins scan of a threshold table, with `"B-"`
as the catch-all when no threshold is met.  Modelled from the spec wording
of the grade classifier. -/
def firstSatisfied (s : ℚ) : List (ℚ × String) → String
  | [] => "B-"
  | (t, g) :: rest => if s ≥ t then g else firstSatisfied s rest

/-- The grade classifier as the spec words it: scan the threshold table
highest-first, first satisfied threshold wins, `"B-"` otherwise. -/
def gradeFromTable (s : ℚ) : String := firstSatisfied s gradeThresholds

/-- The ordered grade scale, highest grade first. -/
def gradeScale : List String :=
  ["AAA", "AA", "A+", "A", "A-", "BBB+", "BBB", "BBB-", "BB+", "BB",
   "BB-", "B+", "B", "B-"]

/-- Numeric rank of a grade: higher rank means higher grade, `"B-"` (and
any string outside the scale) ranks lowest at 0. -/
def gradeRank (g : String) : ℕ :=
  if g = "AAA" then 13
  else if g = "AA" then 12
  else if g = "A+" then 11
  else if g = "A" then 10
  else if g = "A-" then 9
  else if g = "BBB+" then 8
  else if g = "BBB" then 7
  else if g = "BBB-" then 6
  else if g = "BB+" then 5
  else if g = "BB" then 4
  else if g = "BB-" then 3
  else if g = "B+" then 2
  else if g = "B" then 1
  else 0

/-- The scenario profile with its debt zeroed out, exercising the
division guards. -/
def zeroDebtProfile : FinancialProfile :=
  { scenarioProfile with total_debt_usd := 0 }

/-! ### Helper lemmas -/

lemma round_eq_int (x : ℚ) (z : ℤ) (h1 : (z : ℚ) ≤ x + 1/2) (h2 : x + 1/2 < z + 1) :
    round x = z := by
  rw [round_eq]; exact Int.floor_eq_iff.mpr ⟨h1, by exact_mod_cast h2⟩

lemma round2_eq_div (x : ℝ) (z : ℤ) (h1 : (z : ℝ) ≤ x * 100 + 1/2)
    (h2 : x * 100 + 1/2 < z + 1) : round2 x = (z : ℝ) / 100 := by
  unfold round2
  rw [round_eq, Int.floor_eq_iff.mpr ⟨h1, by exact_mod_cast h2⟩]

lemma mem_of_lookup {α β : Type} [BEq α] [LawfulBEq α] {l : List (α × β)}
    {k : α} {b : β} (h : List.lookup k l = some b) : (k, b) ∈ l := by
  obtain ⟨l1, l2, rfl, -⟩ := List.lookup_eq_some_iff.mp h
  simp

lemma grade_eq_table (s : ℚ) : get_rating_grade s = firstSatisfied s gradeThresholds := rfl

lemma firstSat_head_pos (s t : ℚ) (g : String) (rest : List (ℚ × String))
    (h : s ≥ t) : firstSatisfied s ((t, g) :: rest) = g := by
  simp [firstSatisfied, h]

lemma firstSat_head_neg (s t : ℚ) (g : String) (rest : List (ℚ × String))
    (h : ¬ s ≥ t) : firstSatisfied s ((t, g) :: rest) = firstSatisfied s rest := by
  simp [firstSatisfied, h]

lemma firstSat_mem (s : ℚ) (l : List (ℚ × String)) :
    firstSatisfied s l ∈ l.map Prod.snd ++ ["B-"] := by
  induction l with
  | nil => simp [firstSatisfied]
  | cons hd tl ih =>
    obtain ⟨t, g⟩ := hd
    by_cases h : s ≥ t
    · simp [firstSat_head_pos _ _ _ _ h]
    · rw [firstSat_head_neg _ _ _ _ h]
      exact List.mem_cons_of_mem _ ih

lemma firstSat_rank_mono (R : String → ℕ) (c1 c2 : ℚ) (h : c1 ≤ c2) :
    ∀ l : List (ℚ × String),
      (l.map Prod.snd ++ ["B-"]).Pairwise (fun a b => R b ≤ R a) →
      R (firstSatisfied c1 l) ≤ R (firstSatisfied c2 l)
  | [], _ => le_refl _
  | (t, g) :: rest, hp => by
    have hp2 : (g :: (rest.map Prod.snd ++ ["B-"])).Pairwise
        (fun a b => R b ≤ R a) := by simpa using hp
    by_cases h2 : c2 ≥ t
    · rw [firstSat_head_pos _ _ _ _ h2]
      by_cases h1 : c1 ≥ t
      · rw [firstSat_head_pos _ _ _ _ h1]
      · rw [firstSat_head_neg _ _ _ _ h1]
        exact (List.pairwise_cons.mp hp2).1 _ (firstSat_mem c1 rest)
    · have h1 : ¬ c1 ≥ t := fun hc => h2 (hc.trans h)
      rw [firstSat_head_neg _ _ _ _ h1, firstSat_head_neg _ _ _ _ h2]
      exact firstSat_rank_mono R c1 c2 h rest (List.pairwise_cons.mp hp2).2

lemma clamp01_bounds (x : ℚ) : 0 ≤ max (min x 100) 0 ∧ max (min x 100) 0 ≤ 100 :=
  ⟨le_max_right _ _, max_le (min_le_right _ _) (by norm_num)⟩

lemma crs_cases (c : String) : 68 ≤ calculate_crs c ∧ calculate_crs c ≤ 88 := by
  unfold calculate_crs
  cases h : List.lookup c COUNTRY_RISK with
  | none => norm_num
  | some v =>
    have hv : v ∈ COUNTRY_RISK.map Prod.snd :=
      List.mem_map_of_mem Prod.snd (mem_of_lookup h)
    simp only [COUNTRY_RISK, List.map_cons, List.map_nil] at hv
    fin_cases hv <;> norm_num

/-! ### Claim theorems -/

/-- Claim C2: for all five sub-score values, `calculate_composite` returns
exactly `round1 (0.30·crs + 0.25·fss + 0.20·ocbs + 0.15·brs + 0.10·sss)`,
and the five weights sum to 1 exactly. -/
theorem composite_is_weighted_round (crs fss ocbs brs sss : ℚ) :
    calculate_composite crs fss ocbs brs sss =
      round1 (0.30 * crs + 0.25 * fss + 0.20 * ocbs + 0.15 * brs + 0.10 * sss) ∧
    w_crs + w_fss + w_ocbs + w_brs + w_sss = 1 := by
  constructor
  · unfold calculate_composite
    congr 1
    unfold w_crs w_fss w_ocbs w_brs w_sss
    ring
  · norm_num [w_crs, w_fss, w_ocbs, w_brs, w_sss]

/-- Claim C4: for every score, `get_rating_grade` agrees with the
highest-first threshold table of the spec, where the first satisfied
threshold wins and `"B-"` is the catch-all. -/
theorem grade_matches_threshold_table (s : ℚ) :
    get_rating_grade s = gradeFromTable s := by
  rfl

/-- Claim C5: `get_rating_grade` is total (every score maps into the grade
scale, with `"B-"` as catch-all) and monotone non-decreasing: a lower
score never receives a higher grade. -/
theorem grade_total_and_monotone :
    (∀ s : ℚ, get_rating_grade s ∈ gradeScale) ∧
    ∀ c1 c2 : ℚ, c1 < c2 →
      gradeRank (get_rating_grade c1) ≤ gradeRank (get_rating_grade c2) := by
  constructor
  · intro s
    rw [grade_eq_table]
    have hm := firstSat_mem s gradeThresholds
    have heq : gradeThresholds.map Prod.snd ++ ["B-"] = gradeScale := rfl
    rwa [heq] at hm
  · intro c1 c2 h
    rw [grade_eq_table c1, grade_eq_table c2]
    refine firstSat_rank_mono gradeRank c1 c2 h.le gradeThresholds ?_
    have heq : gradeThresholds.map Prod.snd ++ ["B-"] = gradeScale := rfl
    rw [heq]
    decide

/-- Claim C5 witness: a concrete strictly ordered pair of scores with
correspondingly ordered grades. -/
theorem grade_total_and_monotone_witness :
    (50 : ℚ) < 80 ∧
      gradeRank (get_rating_grade 50) ≤ gradeRank (get_rating_grade 80) :=
  ⟨by norm_num, grade_total_and_monotone.2 50 80 (by norm_num)⟩

/-- Claim C9: `calculate_fss` never falls below its base of 50: every tier
contribution is a non-negative bonus and only an upper cap at 100 is
applied. -/
theorem fss_ge_base (p : FinancialProfile) : 50 ≤ calculate_fss p := by
  simp only [calculate_fss]
  refine le_min ?_ (by norm_num)
  split_ifs <;> norm_num

/-- Claim C10: `calculate_ocbs` and `calculate_brs` never fall below 50
(base 80 minus at most 15 + 15, and base 70 minus at most 10 + 10), so
their lower clamp to 0 is never the binding bound. -/
theorem ocbs_brs_ge_50 (p : FinancialProfile) :
    50 ≤ calculate_ocbs p ∧ 50 ≤ calculate_brs p := by
  constructor
  · simp only [calculate_ocbs]
    refine le_max_of_le_left (le_min ?_ (by norm_num))
    split_ifs <;> norm_num
  · simp only [calculate_brs]
    refine le_max_of_le_left (le_min ?_ (by norm_num))
    split_ifs <;> norm_num

/-- Claim C7: every ratio denominator in `calculate_fss` and
`calculate_sss` is floored at 1 before dividing, so each division is by a
nonzero quantity and genuinely inverts (ratio × denominator recovers the
numerator); a zero-debt profile still evaluates without error. -/
theorem ratio_denominators_guarded (p : FinancialProfile) :
    (1 ≤ max p.ebitda_usd 1 ∧
      debt_to_ebitda p * max p.ebitda_usd 1 = p.total_debt_usd) ∧
    (1 ≤ max p.interest_expense_usd 1 ∧
      interest_coverage p * max p.interest_expense_usd 1 = p.ebitda_usd) ∧
    (1 ≤ max p.total_debt_usd 1 ∧
      ocf_to_debt p * max p.total_debt_usd 1 = p.operating_cashflow_usd) ∧
    (1 ≤ max (p.total_debt_usd * 0.2) 1 ∧
      liquidity p * max (p.total_debt_usd * 0.2) 1 = p.cash_usd) ∧
    calculate_fss zeroDebtProfile = 100 ∧
    calculate_sss zeroDebtProfile (calculate_fss zeroDebtProfile) = 3141/40 := by
  have hne : ∀ x : ℚ, max x 1 ≠ 0 := fun x =>
    ne_of_gt (lt_of_lt_of_le one_pos (le_max_right x 1))
  refine ⟨⟨le_max_right _ _, ?_⟩, ⟨le_max_right _ _, ?_⟩,
    ⟨le_max_right _ _, ?_⟩, ⟨le_max_right _ _, ?_⟩, ?_, ?_⟩
  · exact div_mul_cancel₀ _ (hne _)
  · exact div_mul_cancel₀ _ (hne _)
  · exact div_mul_cancel₀ _ (hne _)
  · exact div_mul_cancel₀ _ (hne _)
  · norm_num [calculate_fss, debt_to_ebitda, interest_coverage, ocf_to_debt,
      liquidity, zeroDebtProfile, scenarioProfile, min_def]
  · norm_num [calculate_fss, calculate_sss, debt_to_ebitda, interest_coverage,
      ocf_to_debt, liquidity, zeroDebtProfile, scenarioProfile, min_def, max_def]

/-- Claim C8: `calculate_crs` returns the reference-table value for any
country that is a key of the table and the default 70 for any other
string; in particular the unknown input `"Atlantis"` yields 70. -/
theorem crs_table_or_default (c : String) :
    (∀ v : ℚ, (c, v) ∈ COUNTRY_RISK → calculate_crs c = v) ∧
    ((∀ v : ℚ, (c, v) ∉ COUNTRY_RISK) → calculate_crs c = 70) ∧
    calculate_crs "Atlantis" = 70 := by
  refine ⟨?_, ?_, by rfl⟩
  · intro v hv
    fin_cases hv <;> rfl
  · intro hnone
    unfold calculate_crs
    have h : List.lookup c COUNTRY_RISK = none := by
      rw [List.lookup_eq_none_iff]
      intro pr hpr
      rw [bne_iff_ne]
      intro hc
      have hpr2 : (c, pr.2) = pr := by rw [hc]
      exact hnone pr.2 (hpr2 ▸ hpr)
    rw [h]
    rfl

/-- Claim C8 witness: the theorem applied at the table key `"Kenya"` and
at the unknown country `"Atlantis"`. -/
theorem crs_table_or_default_witness :
    calculate_crs "Kenya" = 78 ∧ calculate_crs "Atlantis" = 70 :=
  ⟨(crs_table_or_default "Kenya").1 78 (by simp [COUNTRY_RISK]),
    (crs_table_or_default "Atlantis").2.2⟩

/-- Claim C6: for every valid profile, the financier behavior, alternative
data and stress sub-scores lie in `[0,100]`, the sovereign score lies in
`[0,100]`, and the financial strength score is at most 100. -/
theorem subscores_bounded (p : FinancialProfile) (_hv : ValidProfile p) :
    (0 ≤ calculate_ocbs p ∧ calculate_ocbs p ≤ 100) ∧
    (0 ≤ calculate_brs p ∧ calculate_brs p ≤ 100) ∧
    (0 ≤ calculate_sss p (calculate_fss p) ∧
      calculate_sss p (calculate_fss p) ≤ 100) ∧
    (0 ≤ calculate_crs p.country ∧ calculate_crs p.country ≤ 100) ∧
    calculate_fss p ≤ 100 := by
  have hcrs := crs_cases p.country
  exact ⟨clamp01_bounds _, clamp01_bounds _, clamp01_bounds _,
    ⟨by linarith [hcrs.1], by linarith [hcrs.2]⟩, min_le_right _ _⟩

/-- Claim C6 witness: the scenario profile is valid and its sub-scores
satisfy the bounds. -/
theorem subscores_bounded_witness :
    ValidProfile scenarioProfile ∧
    ((0 ≤ calculate_ocbs scenarioProfile ∧ calculate_ocbs scenarioProfile ≤ 100) ∧
    (0 ≤ calculate_brs scenarioProfile ∧ calculate_brs scenarioProfile ≤ 100) ∧
    (0 ≤ calculate_sss scenarioProfile (calculate_fss scenarioProfile) ∧
      calculate_sss scenarioProfile (calculate_fss scenarioProfile) ≤ 100) ∧
    (0 ≤ calculate_crs scenarioProfile.country ∧
      calculate_crs scenarioProfile.country ≤ 100) ∧
    calculate_fss scenarioProfile ≤ 100) := by
  have hval : ValidProfile scenarioProfile := by
    unfold ValidProfile
    repeat' apply And.intro
    all_goals first
      | exact ⟨30, by norm_num [scenarioProfile]⟩
      | norm_num [scenarioProfile]
  exact ⟨hval, subscores_bounded scenarioProfile hval⟩

/-! ### Bounds on the exponentials used by the PD estimator -/

lemma exp_one_pow4_lo : (54598149/1000000 : ℝ) ≤ Real.exp 1 ^ 4 := by
  have h : (27182818283/10000000000 : ℝ) ≤ Real.exp 1 := by
    linarith [Real.exp_one_gt_d9]
  calc (54598149/1000000 : ℝ)
      ≤ (27182818283/10000000000 : ℝ) ^ 4 := by norm_num
    _ ≤ Real.exp 1 ^ 4 := pow_le_pow_left₀ (by norm_num) h 4

lemma exp_one_pow4_hi : Real.exp 1 ^ 4 ≤ (54598151/1000000 : ℝ) := by
  have h : Real.exp 1 ≤ (27182818286/10000000000 : ℝ) := by
    linarith [Real.exp_one_lt_d9]
  calc Real.exp 1 ^ 4
      ≤ (27182818286/10000000000 : ℝ) ^ 4 :=
        pow_le_pow_left₀ (Real.exp_pos 1).le h 4
    _ ≤ (54598151/1000000 : ℝ) := by norm_num

lemma exp_inv200_lo : (201/200 : ℝ) ≤ Real.exp (1/200) := by
  have h := Real.add_one_le_exp (1/200 : ℝ)
  linarith

lemma exp_inv200_hi : Real.exp (1/200) ≤ (200/199 : ℝ) := by
  have h := Real.add_one_le_exp (-(1/200) : ℝ)
  have hp : (0:ℝ) < Real.exp (1/200) := Real.exp_pos _
  have hmul : Real.exp (-(1/200)) * Real.exp (1/200) = 1 := by
    rw [← Real.exp_add]
    norm_num
  have h2 := mul_le_mul_of_nonneg_right h (le_of_lt hp)
  rw [hmul] at h2
  linarith

lemma exp_4005_split :
    Real.exp (801/200 : ℝ) = Real.exp 1 ^ 4 * Real.exp (1/200) := by
  rw [← Real.exp_nat_mul]
  rw [← Real.exp_add]
  norm_num

lemma exp_4005_lo : (54871/1000 : ℝ) ≤ Real.exp (801/200) := by
  rw [exp_4005_split]
  calc (54871/1000 : ℝ)
      ≤ (54598149/1000000 : ℝ) * (201/200) := by norm_num
    _ ≤ Real.exp 1 ^ 4 * Real.exp (1/200) :=
        mul_le_mul exp_one_pow4_lo exp_inv200_lo (by norm_num)
          (le_of_lt (pow_pos (Real.exp_pos 1) 4))

lemma exp_4005_hi : Real.exp (801/200) ≤ (54873/1000 : ℝ) := by
  rw [exp_4005_split]
  calc Real.exp 1 ^ 4 * Real.exp (1/200)
      ≤ (54598151/1000000 : ℝ) * (200/199) :=
        mul_le_mul exp_one_pow4_hi exp_inv200_hi
          (le_of_lt (Real.exp_pos _)) (by norm_num)
    _ ≤ (54873/1000 : ℝ) := by norm_num

lemma exp_4075_split :
    Real.exp (163/40 : ℝ) = Real.exp 1 ^ 4 * Real.exp (1/200) ^ 15 := by
  rw [← Real.exp_nat_mul]
  rw [← Real.exp_nat_mul]
  rw [← Real.exp_add]
  norm_num

lemma exp_4075_lo : (58839/1000 : ℝ) ≤ Real.exp (163/40) := by
  rw [exp_4075_split]
  calc (58839/1000 : ℝ)
      ≤ (54598149/1000000 : ℝ) * ((201/200 : ℝ) ^ 15) := by norm_num
    _ ≤ Real.exp 1 ^ 4 * Real.exp (1/200) ^ 15 :=
        mul_le_mul exp_one_pow4_lo
          (pow_le_pow_left₀ (by norm_num) exp_inv200_lo 15) (by positivity)
          (le_of_lt (pow_pos (Real.exp_pos 1) 4))

lemma exp_4075_hi : Real.exp (163/40) ≤ (58863/1000 : ℝ) := by
  rw [exp_4075_split]
  calc Real.exp 1 ^ 4 * Real.exp (1/200) ^ 15
      ≤ (54598151/1000000 : ℝ) * ((200/199 : ℝ) ^ 15) :=
        mul_le_mul exp_one_pow4_hi
          (pow_le_pow_left₀ (Real.exp_pos _).le exp_inv200_hi 15)
          (by positivity) (by norm_num)
    _ ≤ (58863/1000 : ℝ) := by norm_num

lemma pd_at_815 : calculate_pd (163/2) = ((0.85 : ℝ), (1.95 : ℝ)) := by
  have hEpos : (0:ℝ) < Real.exp (163/40 : ℝ) := Real.exp_pos _
  have hlo := exp_4075_lo
  have hhi := exp_4075_hi
  have harg : (-0.05 * (163/2) : ℝ) = -(163/40 : ℝ) := by norm_num
  have hq : (50:ℝ) * Real.exp (-0.05 * (163/2)) = 50 / Real.exp (163/40) := by
    rw [harg, Real.exp_neg, ← div_eq_mul_inv]
  have hq_lo : (50000/58863 : ℝ) ≤ 50 / Real.exp (163/40) := by
    rw [le_div_iff₀ hEpos]; linarith
  have hq_hi : 50 / Real.exp (163/40) ≤ (50000/58839 : ℝ) := by
    rw [div_le_iff₀ hEpos]; linarith
  have hmax : max (0.1:ℝ) (50 * Real.exp (-0.05 * (163/2))) =
      50 / Real.exp (163/40) := by
    rw [hq]; exact max_eq_right (by linarith)
  show (round2 (max 0.1 (50 * Real.exp (-0.05 * (163/2)))),
        round2 (max 0.1 (50 * Real.exp (-0.05 * (163/2))) * 2.3)) =
      ((0.85 : ℝ), (1.95 : ℝ))
  rw [hmax]
  have h1 : round2 (50 / Real.exp (163/40)) = ((85:ℤ):ℝ)/100 :=
    round2_eq_div _ 85 (by push_cast; linarith) (by push_cast; linarith)
  have h2 : round2 (50 / Real.exp (163/40) * 2.3) = ((195:ℤ):ℝ)/100 :=
    round2_eq_div _ 195 (by push_cast; linarith) (by push_cast; linarith)
  rw [h1, h2]
  norm_num

lemma pd_at_801 : calculate_pd (801/10) = ((0.91 : ℝ), (2.1 : ℝ)) := by
  have hEpos : (0:ℝ) < Real.exp (801/200 : ℝ) := Real.exp_pos _
  have hlo := exp_4005_lo
  have hhi := exp_4005_hi
  have harg : (-0.05 * (801/10) : ℝ) = -(801/200 : ℝ) := by norm_num
  have hq : (50:ℝ) * Real.exp (-0.05 * (801/10)) = 50 / Real.exp (801/200) := by
    rw [harg, Real.exp_neg, ← div_eq_mul_inv]
  have hq_lo : (50000/54873 : ℝ) ≤ 50 / Real.exp (801/200) := by
    rw [le_div_iff₀ hEpos]; linarith
  have hq_hi : 50 / Real.exp (801/200) ≤ (50000/54871 : ℝ) := by
    rw [div_le_iff₀ hEpos]; linarith
  have hmax : max (0.1:ℝ) (50 * Real.exp (-0.05 * (801/10))) =
      50 / Real.exp (801/200) := by
    rw [hq]; exact max_eq_right (by linarith)
  show (round2 (max 0.1 (50 * Real.exp (-0.05 * (801/10)))),
        round2 (max 0.1 (50 * Real.exp (-0.05 * (801/10))) * 2.3)) =
      ((0.91 : ℝ), (2.1 : ℝ))
  rw [hmax]
  have h1 : round2 (50 / Real.exp (801/200)) = ((91:ℤ):ℝ)/100 :=
    round2_eq_div _ 91 (by push_cast; linarith) (by push_cast; linarith)
  have h2 : round2 (50 / Real.exp (801/200) * 2.3) = ((210:ℤ):ℝ)/100 :=
    round2_eq_div _ 210 (by push_cast; linarith) (by push_cast; linarith)
  rw [h1, h2]
  norm_num

/-- Claim C3 (amended): `calculate_pd` returns
`pd_1y = round2 (max 0.1 (50·e^(−0.05·s)))`, which is always at least 0.1,
and `pd_3y = round2 (p × 2.3)` where `p` is the unrounded value
`max 0.1 (50·e^(−0.05·s))` — not the returned two-decimal `pd_1y`. -/
theorem pd_formula (s : ℝ) :
    (calculate_pd s).1 = round2 (max 0.1 (50 * Real.exp (-0.05 * s))) ∧
    (0.1 : ℝ) ≤ (calculate_pd s).1 ∧
    (calculate_pd s).2 = round2 (max 0.1 (50 * Real.exp (-0.05 * s)) * 2.3) := by
  refine ⟨rfl, ?_, rfl⟩
  show (0.1:ℝ) ≤ round2 (max 0.1 (50 * Real.exp (-0.05 * s)))
  have hm : (0.1:ℝ) ≤ max 0.1 (50 * Real.exp (-0.05 * s)) := le_max_left _ _
  have h10 : (10:ℤ) ≤ round ((max 0.1 (50 * Real.exp (-0.05 * s))) * 100) := by
    rw [round_eq]
    refine Int.le_floor.mpr ?_
    push_cast
    linarith
  have hc : ((10:ℤ):ℝ) ≤
      ((round ((max 0.1 (50 * Real.exp (-0.05 * s))) * 100) : ℤ) : ℝ) := by
    exact_mod_cast h10
  unfold round2
  push_cast at hc
  linarith

/-- Claim C3 counterexample: at score 80.1 the code returns
`pd_1y = 0.91` and `pd_3y = 2.10`, but rounding `pd_1y × 2.3` from the
returned two-decimal `pd_1y` would give `round2 (0.91 × 2.3) = 2.09`, so
the returned `pd_3y` does not equal `round2` of the returned `pd_1y`
times 2.3. -/
theorem pd3y_not_from_rounded_pd1y :
    (calculate_pd (801/10)).1 = 0.91 ∧
    (calculate_pd (801/10)).2 = 2.1 ∧
    round2 ((calculate_pd (801/10)).1 * 2.3) = 2.09 ∧
    (calculate_pd (801/10)).2 ≠ round2 ((calculate_pd (801/10)).1 * 2.3) := by
  have h1 : (calculate_pd (801/10)).1 = (0.91:ℝ) := by rw [pd_at_801]
  have h2 : (calculate_pd (801/10)).2 = (2.1:ℝ) := by rw [pd_at_801]
  have h3 : round2 ((0.91:ℝ) * 2.3) = 2.09 := by
    have h := round2_eq_div ((0.91:ℝ) * 2.3) 209 (by push_cast; norm_num)
      (by push_cast; norm_num)
    rw [h]; norm_num
  refine ⟨h1, h2, by rw [h1]; exact h3, ?_⟩
  rw [h1, h2, h3]
  norm_num

/-- Claim C1 (amended): on the scenario profile the engine returns
sovereign 78, financial strength 83, financier behavior 85, alt data 95,
stress 61.02575 (61.0 after rounding to one decimal), composite 81.5,
grade `"A+"`, `pd_1y = 0.85`, and `pd_3y = 1.95` (the code multiplies the
unrounded 1-year value 0.8496… by 2.3 before rounding, giving 1.95
rather than the spec's 1.96). -/
theorem scenario_rating :
    calculate_crs scenarioProfile.country = 78 ∧
    calculate_fss scenarioProfile = 83 ∧
    calculate_ocbs scenarioProfile = 85 ∧
    calculate_brs scenarioProfile = 95 ∧
    calculate_sss scenarioProfile (calculate_fss scenarioProfile) = 244103/4000 ∧
    round1 (calculate_sss scenarioProfile (calculate_fss scenarioProfile)) = 61 ∧
    calculate_composite (calculate_crs scenarioProfile.country)
      (calculate_fss scenarioProfile) (calculate_ocbs scenarioProfile)
      (calculate_brs scenarioProfile)
      (calculate_sss scenarioProfile (calculate_fss scenarioProfile)) = 163/2 ∧
    get_rating_grade (163/2) = "A+" ∧
    (calculate_pd (163/2)).1 = 0.85 ∧
    (calculate_pd (163/2)).2 = 1.95 := by
  have hcrs : calculate_crs scenarioProfile.country = 78 := by rfl
  have hfss : calculate_fss scenarioProfile = 83 := by
    norm_num [calculate_fss, debt_to_ebitda, interest_coverage, ocf_to_debt,
      liquidity, scenarioProfile, min_def]
  have hno : lower "no" ≠ "yes" := by decide
  have hyes : lower "yes" = "yes" := by decide
  have hocbs : calculate_ocbs scenarioProfile = 85 := by
    norm_num [calculate_ocbs, scenarioProfile, min_def, max_def, hno]
  have hbrs : calculate_brs scenarioProfile = 95 := by
    norm_num [calculate_brs, scenarioProfile, min_def, max_def, hyes]
  have hsss : calculate_sss scenarioProfile (calculate_fss scenarioProfile) =
      244103/4000 := by
    rw [hfss]
    norm_num [calculate_sss, liquidity, scenarioProfile, min_def, max_def]
  have hr1 : round1 (244103/4000 : ℚ) = 61 := by
    have h : round ((244103/4000 : ℚ) * 10) = (610:ℤ) :=
      round_eq_int _ 610 (by norm_num) (by norm_num)
    rw [round1, h]
    norm_num
  have hcomp : calculate_composite 78 83 85 95 (244103/4000) = 163/2 := by
    unfold calculate_composite w_crs w_fss w_ocbs w_brs w_sss
    have harg : ((78:ℚ) * 0.30 + 83 * 0.25 + 85 * 0.20 + 95 * 0.15 +
        (244103/4000 : ℚ) * 0.10) = 3260103/40000 := by norm_num
    rw [harg]
    have h : round ((3260103/40000 : ℚ) * 10) = (815:ℤ) :=
      round_eq_int _ 815 (by norm_num) (by norm_num)
    rw [round1, h]
    norm_num
  have hgrade : get_rating_grade (163/2 : ℚ) = "A+" := by
    norm_num [get_rating_grade]
  have hpd1 : (calculate_pd (163/2)).1 = (0.85:ℝ) := by rw [pd_at_815]
  have hpd2 : (calculate_pd (163/2)).2 = (1.95:ℝ) := by rw [pd_at_815]
  refine ⟨hcrs, hfss, hocbs, hbrs, hsss, by rw [hsss]; exact hr1, ?_, hgrade,
    hpd1, hpd2⟩
  rw [hsss, hcrs, hfss, hocbs, hbrs]
  exact hcomp

/-- Claim C1 counterexample: the returned three-year PD on the scenario
composite 81.5 is exactly 1.95, which is not the 1.96 the claim expects. -/
theorem scenario_pd3y_is_195_not_196 :
    (calculate_pd (163/2)).2 = 1.95 ∧ (1.95 : ℝ) ≠ 1.96 := by
  refine ⟨by rw [pd_at_815], by norm_num⟩

end SACRM
